import Mathlib

/-!
Verification of the chat-session/history core of the AI-Data-Science-Tutor
application (src/app.py): the transcript model, its JSON persistence, the
AI-client adapter wrapper, the chat exchange handler, the auxiliary one-shot
analyses and the PDF exporter, shallowly embedded as pure Lean functions.
-/

namespace Tutor

/-- A JSON value, the shallow embedding of what Python's `json` module reads
and writes (`json.load` / `json.dump`).  Numbers are modelled as integers;
the program never persists numbers, so this loses nothing. -/
inductive Json where
  | null : Json
  | bool (b : Bool) : Json
  | num (n : Int) : Json
  | str (s : String) : Json
  | arr (xs : List Json) : Json
  | obj (fields : List (String × Json)) : Json

/-- One turn of the conversation as the program stores it: the Python tuple
`(role, text, timestamp)` appended to `st.session_state.chat_history`. -/
abbrev Turn := String × String × String

/-- JSON encoding of one turn: a Python 3-tuple of strings serializes as a
JSON array of three strings. -/
def encodeTurn (t : Turn) : Json :=
  Json.arr [Json.str t.1, Json.str t.2.1, Json.str t.2.2]

/-- JSON encoding of the whole chat history, as `json.dump` writes it:
a JSON array of the encoded turns in list order. -/
def encodeHistory (h : List Turn) : Json :=
  Json.arr (h.map encodeTurn)

/-- The state of the persisted record `chat_history.json` as `open` +
`json.load` observe it. -/
inductive FileState where
  /-- The file does not exist: `open` raises `FileNotFoundError`. -/
  | missing : FileState
  /-- The file exists but its content is not parseable JSON:
  `json.load` raises `JSONDecodeError`. -/
  | malformed : FileState
  /-- The file exists but reading it raises some other error (for example a
  permission error), which `load_chat_history` does not catch. -/
  | unreadable (msg : String) : FileState
  /-- The file exists and parses to the JSON value `j`. -/
  | content (j : Json) : FileState

/-- The errors that opening and parsing the history file can raise. -/
inductive ReadError where
  | fileNotFound : ReadError
  | jsonDecodeError : ReadError
  | other (msg : String) : ReadError
deriving DecidableEq

/-- The body of the `try` block of `load_chat_history`:
`open(CHAT_HISTORY_FILE); json.load(f)`, which either returns a JSON value
or raises. -/
def readFileJson : FileState → Except ReadError Json
  | FileState.missing => Except.error ReadError.fileNotFound
  | FileState.malformed => Except.error ReadError.jsonDecodeError
  | FileState.unreadable m => Except.error (ReadError.other m)
  | FileState.content j => Except.ok j

/-- The function `load_chat_history` (src/app.py lines 43-48): tries to read
and parse the file; `except (FileNotFoundError, JSONDecodeError)` returns `[]`.
Any other error propagates to the caller, hence the `Except` result. -/
def load_chat_history (s : FileState) : Except ReadError Json :=
  match readFileJson s with
  | Except.ok j => Except.ok j
  | Except.error ReadError.fileNotFound => Except.ok (Json.arr [])
  | Except.error ReadError.jsonDecodeError => Except.ok (Json.arr [])
  | Except.error e => Except.error e

/-- The function `save_chat_history` (src/app.py lines 50-52): opens the file
for writing and dumps the whole in-memory history, replacing whatever was
there. -/
def save_chat_history (h : List Turn) : FileState :=
  FileState.content (encodeHistory h)

/-- Reading one JSON value back as a `(role, text, timestamp)` triple, the
way the program unpacks each loaded entry (`for role, msg, timestamp in ...`). -/
def asTriple : Json → Option Turn
  | Json.arr [Json.str a, Json.str b, Json.str c] => some (a, b, c)
  | _ => none

/-- Reading each entry of a loaded JSON array back as a triple; any entry of
the wrong shape fails the whole interpretation. -/
def asTripleList : List Json → Option (List Turn)
  | [] => some []
  | j :: js =>
    match asTriple j, asTripleList js with
    | some t, some ts => some (t :: ts)
    | _, _ => none

/-- Reading a loaded JSON value back as the list of turns it denotes. -/
def asTriples : Json → Option (List Turn)
  | Json.arr xs => asTripleList xs
  | _ => none

/-- The `(role, text, timestamp)` triples a fresh instance obtains from the
store: load, then interpret the JSON value as a list of triples. -/
def loadedTriples (s : FileState) : Option (List Turn) :=
  match load_chat_history s with
  | Except.ok j => asTriples j
  | Except.error _ => none

theorem asTriple_encodeTurn (t : Turn) : asTriple (encodeTurn t) = some t := by
  rcases t with ⟨r, x, ts⟩
  rfl

theorem asTriples_encodeHistory (h : List Turn) :
    asTriples (encodeHistory h) = some h := by
  simp only [asTriples, encodeHistory]
  induction h with
  | nil => rfl
  | cons t ts ih =>
    simp only [List.map_cons, asTripleList, asTriple_encodeTurn]
    simp only [asTriples, encodeHistory] at ih
    rw [ih]

/-! ## The AI client adapter -/

/-- The system prompt prefixed to every tutoring question
(src/app.py lines 24-29). -/
def SYSTEM_PROMPT : String :=
  "You are an AI Data Science Tutor.\n- Provide structured insights for **Finance, Healthcare, Retail, and Manufacturing**.\n- Offer **ML model suggestions, hyperparameter tuning, and dataset recommendations**.\n- Explain **concepts with examples and code snippets** when needed.\n- Format responses using **headings, bullet points, and markdown formatting**.\n"

/-- The full prompt sent to the model for a chat question: the f-string
in src/app.py line 35. -/
def build_prompt (user_input : String) : String :=
  SYSTEM_PROMPT ++ "\n\nQuestion: " ++ user_input

/-- What one call to the remote text-generation service can do, as observed
by `get_ai_response`. -/
inductive ApiResult where
  /-- A truthy response object whose `.text` attribute is `text`; an empty
  `text` models both an empty string and an absent (`None`) text, which are
  equally falsy in Python. -/
  | ok (text : String) : ApiResult
  /-- A falsy response object. -/
  | noResponse : ApiResult
  /-- The call raised an exception (transport, authentication, quota, safety
  block, ...) whose string rendering is `msg`. -/
  | exn (msg : String) : ApiResult

/-- The behaviour of the remote service: what the call returns or raises,
as a function of the full prompt it receives. -/
abbrev Service := String → ApiResult

/-- The body of the `try` block of `get_ai_response` (src/app.py lines 34-36):
build the model, call `generate_content` on the composed prompt, and return
`response.text` when `response` and `response.text` are truthy, else the fixed
placeholder.  An exception escapes as `Except.error`. -/
def try_generate (service : Service) (user_input : String) : Except String String :=
  match service (build_prompt user_input) with
  | ApiResult.ok t =>
    Except.ok (if t = "" then "⚠️ No response generated." else t)
  | ApiResult.noResponse => Except.ok "⚠️ No response generated."
  | ApiResult.exn m => Except.error m

/-- The function `get_ai_response` (src/app.py lines 32-38): the `try` body,
with `except Exception as e` turning any exception into the string
`"⚠️ API Error: " ++ str(e)`.  The result is a plain string: no exception
escapes. -/
def get_ai_response (service : Service) (user_input : String) : String :=
  match try_generate service user_input with
  | Except.ok t => t
  | Except.error m => "⚠️ API Error: " ++ m

/-! ## Timestamps -/

/-- A wall-clock instant as Python's `datetime.datetime.now()` observes it,
to second precision. -/
structure DateTime where
  year : Nat
  month : Nat
  day : Nat
  hour : Nat
  minute : Nat
  second : Nat

/-- The range Python's `datetime` can represent (and hence the only values
`datetime.now()` can return): four-digit years, two-digit remaining fields. -/
def DateTime.Valid (d : DateTime) : Prop :=
  d.year < 10000 ∧ d.month < 100 ∧ d.day < 100 ∧
    d.hour < 100 ∧ d.minute < 100 ∧ d.second < 100

instance (d : DateTime) : Decidable d.Valid := by
  unfold DateTime.Valid
  infer_instance

/-- Models `datetime.datetime.now().strftime("%Y-%m-%d %H:%M:%S")`
(src/app.py line 123): the zero-padded four-digit year, then zero-padded
two-digit month, day, hour, minute, second, with the literal separators.
Digit extraction agrees with `strftime` on every `DateTime.Valid` value. -/
def formatTimestamp (d : DateTime) : String :=
  String.mk
    [ Nat.digitChar (d.year / 1000 % 10), Nat.digitChar (d.year / 100 % 10),
      Nat.digitChar (d.year / 10 % 10), Nat.digitChar (d.year % 10), '-',
      Nat.digitChar (d.month / 10 % 10), Nat.digitChar (d.month % 10), '-',
      Nat.digitChar (d.day / 10 % 10), Nat.digitChar (d.day % 10), ' ',
      Nat.digitChar (d.hour / 10 % 10), Nat.digitChar (d.hour % 10), ':',
      Nat.digitChar (d.minute / 10 % 10), Nat.digitChar (d.minute % 10), ':',
      Nat.digitChar (d.second / 10 % 10), Nat.digitChar (d.second % 10) ]

/-- Checks that a character list spells `YYYY-MM-DD HH:MM:SS`: nineteen
characters, digits in the date and time positions, the literal separators
in between. -/
def validTimestampChars : List Char → Bool
  | [y1, y2, y3, y4, s1, m1, m2, s2, d1, d2, s3, h1, h2, s4, n1, n2, s5, c1, c2] =>
    y1.isDigit && y2.isDigit && y3.isDigit && y4.isDigit && s1 == '-' &&
    m1.isDigit && m2.isDigit && s2 == '-' && d1.isDigit && d2.isDigit &&
    s3 == ' ' && h1.isDigit && h2.isDigit && s4 == ':' && n1.isDigit &&
    n2.isDigit && s5 == ':' && c1.isDigit && c2.isDigit
  | _ => false

/-- A string in the persisted-record timestamp format `YYYY-MM-DD HH:MM:SS`. -/
def ValidTimestamp (s : String) : Bool :=
  validTimestampChars s.data

/-! ## The streaming presentation loop -/

/-- Python's `str.isspace` on a single character, the separator class of
`str.split()` with no argument. -/
def pyIsSpace (c : Char) : Bool :=
  c == ' ' || c == '\t' || c == '\n' || c == '\r' || c == '\x0b' || c == '\x0c'

/-- Worker for `pySplitWs`: walks the characters, gathering the current word
in reverse in `acc`; whitespace ends a word, empty words are dropped. -/
def splitWsAux : List Char → List Char → List String
  | [], acc => if acc.isEmpty then [] else [String.mk acc.reverse]
  | c :: cs, acc =>
    if pyIsSpace c then
      if acc.isEmpty then splitWsAux cs []
      else String.mk acc.reverse :: splitWsAux cs []
    else
      splitWsAux cs (c :: acc)

/-- Python's `str.split()` with no argument: split on runs of whitespace and
drop empty pieces (src/app.py line 130 calls it on the adapter result). -/
def pySplitWs (s : String) : List String :=
  splitWsAux s.data []

/-- The incremental-reveal loop (src/app.py lines 128-133): starting from the
empty string, append `word + " "` for every word of the adapter result.  The
value left in `response_text` after the loop is what the program stores in the
assistant turn. -/
def stream_reveal (resp : String) : String :=
  (pySplitWs resp).foldl (fun acc w => acc ++ w ++ " ") ""

/-! ## The session state and its operations -/

/-- The mutable session state the handlers touch: the in-memory transcript
(`st.session_state.chat_history`) and the persisted record
(`chat_history.json`). -/
structure AppState where
  history : List Turn
  file : FileState

/-- The chat exchange block (src/app.py lines 122-137): on truthy input,
take one timestamp, append the user turn, run the reveal loop over
`get_ai_response`, append the assistant turn with the revealed text and the
same timestamp, then save the whole history.  Falsy input (no submission or
the empty string) leaves the state untouched. -/
def handle_chat (service : Service) (st : AppState)
    (user_input : String) (now : DateTime) : AppState :=
  if user_input = "" then st
  else
    let timestamp := formatTimestamp now
    let h1 := st.history ++ [("user", user_input, timestamp)]
    let response_text := stream_reveal (get_ai_response service user_input)
    let h2 := h1 ++ [("assistant", response_text, timestamp)]
    { history := h2, file := save_chat_history h2 }

/-- The resume-analysis button handler (src/app.py lines 150-152): one adapter
call on the fixed instruction plus the pasted resume text; the result is only
rendered in the sidebar. -/
def analyze_resume (service : Service) (resume_text : String) : String :=
  get_ai_response service ("Analyze this resume for a data science job:\n\n" ++ resume_text)

/-- The uploaded-file analysis block (src/app.py lines 158-165): one adapter
call on the fixed instruction plus the textual preview of the uploaded data;
the result is only rendered. -/
def analyze_dataset (service : Service) (preview : String) : String :=
  get_ai_response service ("Analyze this dataset:\n\n" ++ preview)

/-- One user-triggered operation of the application. -/
inductive Op where
  | chat (user_input : String) (now : DateTime) : Op
  | resume (resume_text : String) : Op
  | dataset (preview : String) : Op
  | exportChat : Op

/-- One step of the session: perform the operation on the state, returning
the new state and the text the operation displays outside the transcript,
if any. -/
def step (service : Service) (st : AppState) : Op → AppState × Option String
  | Op.chat input now => (handle_chat service st input now, none)
  | Op.resume t => (st, some (analyze_resume service t))
  | Op.dataset p => (st, some (analyze_dataset service p))
  | Op.exportChat => (st, none)

/-! ## The PDF exporter -/

/-- One drawing command issued to the PDF builder, in the order
`export_pdf` issues them.  The builder renders these deterministically. -/
inductive PdfCmd where
  | setAutoPageBreak (auto : Bool) (margin : Nat) : PdfCmd
  | addPage : PdfCmd
  | setFont (family style : String) (size : Nat) : PdfCmd
  | cell (w h : Nat) (txt : String) (moveDown : Bool) (align : String) : PdfCmd
  | ln (h : Nat) : PdfCmd
  | multiCell (w h : Nat) (txt : String) : PdfCmd

/-- The commands the loop body of `export_pdf` issues for one turn
(src/app.py lines 182-187): bold header `[timestamp] role:`, then the body
text in a multi-cell, then a small vertical gap. -/
def turnCmds (t : Turn) : List PdfCmd :=
  [ PdfCmd.setFont "Arial" "B" 12,
    PdfCmd.cell 0 8 ("[" ++ t.2.2 ++ "] " ++ (if t.1 = "user" then "User" else "AI") ++ ":") true "",
    PdfCmd.setFont "Arial" "" 11,
    PdfCmd.multiCell 0 7 t.2.1,
    PdfCmd.ln 3 ]

/-- The function `export_pdf` (src/app.py lines 173-191) as the sequence of
drawing commands it issues: page-break setup, a page, the centered title
cell, then the per-turn commands in transcript order.  The extra arguments
`rand` (a randomness source) and `net` (responses of external calls) model
the ambient effects the claim rules out: the body consults neither. -/
def export_pdf (history : List Turn) (rand : Nat → Nat) (net : String → String) :
    List PdfCmd :=
  [ PdfCmd.setAutoPageBreak true 15, PdfCmd.addPage,
    PdfCmd.setFont "Arial" "" 12,
    PdfCmd.cell 200 10 "Chat History" true "C", PdfCmd.ln 5 ]
  ++ (history.map turnCmds).flatten

/-! ## Auxiliary lemmas -/

theorem digitChar_isDigit : ∀ n < 10, (Nat.digitChar n).isDigit = true := by
  decide

theorem digitChar_mod_isDigit (n : Nat) : (Nat.digitChar (n % 10)).isDigit = true :=
  digitChar_isDigit _ (Nat.mod_lt _ (by norm_num))

theorem validTimestamp_formatTimestamp (d : DateTime) :
    ValidTimestamp (formatTimestamp d) = true := by
  simp [ValidTimestamp, formatTimestamp, validTimestampChars, digitChar_mod_isDigit]

/-- A turn whose shape matches the persisted-record contract: the role is
one of the two literal strings and the timestamp spells
`YYYY-MM-DD HH:MM:SS`. -/
def WFTurn (t : Turn) : Prop :=
  (t.1 = "user" ∨ t.1 = "assistant") ∧ ValidTimestamp t.2.2 = true

/-! ## The claims -/

/-- C1.  Saving any transcript and loading it back in a fresh instance
yields the same ordered sequence of `(role, text, timestamp)` triples; in
particular the two-turn example transcript round-trips exactly. -/
theorem claim_C1_round_trip :
    (∀ h : List Turn, loadedTriples (save_chat_history h) = some h) ∧
    loadedTriples (save_chat_history
      [("user", "What is overfitting?", "2024-01-01 10:00:00"),
       ("assistant", "Overfitting is...", "2024-01-01 10:00:01")]) =
      some [("user", "What is overfitting?", "2024-01-01 10:00:00"),
            ("assistant", "Overfitting is...", "2024-01-01 10:00:01")] := by
  have key : ∀ h : List Turn, loadedTriples (save_chat_history h) = some h := by
    intro h
    simp [loadedTriples, save_chat_history, load_chat_history, readFileJson,
      asTriples_encodeHistory]
  exact ⟨key, key _⟩

/-- C2.  On a missing file or unparseable content, `load_chat_history`
returns the empty list (as a JSON value, hence as the empty sequence of
triples) instead of letting the error escape. -/
theorem claim_C2_load_fail_soft :
    load_chat_history FileState.missing = Except.ok (Json.arr []) ∧
    load_chat_history FileState.malformed = Except.ok (Json.arr []) ∧
    loadedTriples FileState.missing = some [] ∧
    loadedTriples FileState.malformed = some [] :=
  ⟨rfl, rfl, rfl, rfl⟩

/-- C3.  For every service behaviour and every input, `get_ai_response`
returns a plain string — the non-empty response text, the fixed placeholder,
or a message prefixed with the API-error marker — and never propagates an
exception. -/
theorem claim_C3_adapter_never_raises :
    ∀ (service : Service) (input : String),
      (∃ t, service (build_prompt input) = ApiResult.ok t ∧ t ≠ "" ∧
        get_ai_response service input = t) ∨
      get_ai_response service input = "⚠️ No response generated." ∨
      (∃ m, get_ai_response service input = "⚠️ API Error: " ++ m) := by
  intro service input
  rcases h : service (build_prompt input) with t | _ | m
  · by_cases ht : t = ""
    · right; left
      simp [get_ai_response, try_generate, h, ht]
    · left
      exact ⟨t, rfl, ht, by simp [get_ai_response, try_generate, h, ht]⟩
  · right; left
    simp [get_ai_response, try_generate, h]
  · right; right
    exact ⟨m, by simp [get_ai_response, try_generate, h]⟩

/-- C4, counterexample.  With a stub adapter whose result is the string
"rate limited", submitting a question stores an assistant turn whose text is
"rate limited " — the reveal loop appends a space after every word — which is
not the adapter result "rate limited" the claim promises. -/
theorem claim_C4_counterexample :
    (handle_chat (fun _ => ApiResult.ok "rate limited")
        ⟨[], FileState.missing⟩ "What is overfitting?" ⟨2024, 1, 1, 10, 0, 0⟩).history =
      [("user", "What is overfitting?", "2024-01-01 10:00:00"),
       ("assistant", "rate limited ", "2024-01-01 10:00:00")] ∧
    "rate limited " ≠ "rate limited" := by
  constructor
  · rfl
  · decide

/-- C4, amended.  Submitting a non-empty question appends a user turn with
the question text and an assistant turn whose text is the reveal loop's
output: the adapter result split into whitespace-separated words and
re-joined with one trailing space after each word, so the stub result
"rate limited" is stored as "rate limited ". -/
theorem claim_C4_amended (service : Service) (st : AppState)
    (input : String) (now : DateTime) (hin : input ≠ "") :
    (handle_chat service st input now).history =
      st.history ++
        [("user", input, formatTimestamp now),
         ("assistant", stream_reveal (get_ai_response service input),
           formatTimestamp now)] ∧
    stream_reveal "rate limited" = "rate limited " := by
  constructor
  · simp [handle_chat, hin]
  · rfl

theorem claim_C4_amended_witness :
    (handle_chat (fun _ => ApiResult.ok "rate limited")
        (AppState.mk [] FileState.missing) "What is overfitting?"
        ⟨2024, 1, 1, 10, 0, 0⟩).history =
      (AppState.mk [] FileState.missing).history ++
        [("user", "What is overfitting?",
           formatTimestamp ⟨2024, 1, 1, 10, 0, 0⟩),
         ("assistant",
           stream_reveal (get_ai_response (fun _ => ApiResult.ok "rate limited")
             "What is overfitting?"),
           formatTimestamp ⟨2024, 1, 1, 10, 0, 0⟩)] ∧
    stream_reveal "rate limited" = "rate limited " :=
  claim_C4_amended (fun _ => ApiResult.ok "rate limited")
    (AppState.mk [] FileState.missing) "What is overfitting?"
    ⟨2024, 1, 1, 10, 0, 0⟩ (by decide)

/-- C5.  A completed exchange on non-empty input appends exactly the user
turn then the assistant turn (length grows by two) and rewrites the store
with the full updated transcript. -/
theorem claim_C5_two_appends_full_rewrite (service : Service) (st : AppState)
    (input : String) (now : DateTime) (hin : input ≠ "") :
    (handle_chat service st input now).history =
      st.history ++
        [("user", input, formatTimestamp now),
         ("assistant", stream_reveal (get_ai_response service input),
           formatTimestamp now)] ∧
    (handle_chat service st input now).history.length = st.history.length + 2 ∧
    (handle_chat service st input now).file =
      FileState.content (encodeHistory (handle_chat service st input now).history) := by
  refine ⟨by simp [handle_chat, hin], ?_, ?_⟩
  · simp [handle_chat, hin]
  · simp [handle_chat, hin, save_chat_history]

theorem claim_C5_two_appends_full_rewrite_witness :
    (handle_chat (fun _ => ApiResult.noResponse)
        (AppState.mk [] FileState.missing) "hi" ⟨2024, 1, 1, 10, 0, 0⟩).history =
      (AppState.mk [] FileState.missing).history ++
        [("user", "hi", formatTimestamp ⟨2024, 1, 1, 10, 0, 0⟩),
         ("assistant",
           stream_reveal (get_ai_response (fun _ => ApiResult.noResponse) "hi"),
           formatTimestamp ⟨2024, 1, 1, 10, 0, 0⟩)] ∧
    (handle_chat (fun _ => ApiResult.noResponse)
        (AppState.mk [] FileState.missing) "hi" ⟨2024, 1, 1, 10, 0, 0⟩).history.length =
      (AppState.mk [] FileState.missing).history.length + 2 ∧
    (handle_chat (fun _ => ApiResult.noResponse)
        (AppState.mk [] FileState.missing) "hi" ⟨2024, 1, 1, 10, 0, 0⟩).file =
      FileState.content (encodeHistory
        (handle_chat (fun _ => ApiResult.noResponse)
          (AppState.mk [] FileState.missing) "hi" ⟨2024, 1, 1, 10, 0, 0⟩).history) :=
  claim_C5_two_appends_full_rewrite (fun _ => ApiResult.noResponse)
    (AppState.mk [] FileState.missing) "hi" ⟨2024, 1, 1, 10, 0, 0⟩ (by decide)

/-- C6.  Every operation — chat exchange, resume analysis, dataset analysis,
PDF export — leaves the starting transcript as a prefix of the resulting one:
the transcript only ever gains turns at the end. -/
theorem claim_C6_append_only :
    ∀ (service : Service) (st : AppState) (op : Op),
      ∃ tail, (step service st op).1.history = st.history ++ tail := by
  intro service st op
  cases op with
  | chat input now =>
    by_cases hin : input = ""
    · exact ⟨[], by simp [step, handle_chat, hin]⟩
    · exact ⟨[("user", input, formatTimestamp now),
        ("assistant", stream_reveal (get_ai_response service input),
          formatTimestamp now)], by simp [step, handle_chat, hin]⟩
  | resume t => exact ⟨[], by simp [step]⟩
  | dataset p => exact ⟨[], by simp [step]⟩
  | exportChat => exact ⟨[], by simp [step]⟩

/-- C7.  After a completed exchange starting from a transcript of well-formed
turns, the store holds the JSON array of the whole transcript's encoded
`(role, text, timestamp)` triples, in transcript order, and every stored turn
has a role in the set of the two literal strings and a timestamp spelling
`YYYY-MM-DD HH:MM:SS`. -/
theorem claim_C7_persisted_format (service : Service) (st : AppState)
    (input : String) (now : DateTime) (hin : input ≠ "")
    (hwf : ∀ t ∈ st.history, WFTurn t) :
    (handle_chat service st input now).file =
      FileState.content
        (Json.arr ((handle_chat service st input now).history.map encodeTurn)) ∧
    ∀ t ∈ (handle_chat service st input now).history, WFTurn t := by
  constructor
  · simp [handle_chat, hin, save_chat_history, encodeHistory]
  · intro t ht
    simp only [handle_chat, hin, if_neg, ite_false] at ht
    simp only [List.append_assoc, List.mem_append, List.mem_singleton,
      List.mem_cons, List.not_mem_nil, or_false] at ht
    rcases ht with ht | ht | ht
    · exact hwf t ht
    · subst ht
      exact ⟨Or.inl rfl, validTimestamp_formatTimestamp now⟩
    · subst ht
      exact ⟨Or.inr rfl, validTimestamp_formatTimestamp now⟩

theorem claim_C7_persisted_format_witness :
    (handle_chat (fun _ => ApiResult.ok "ok")
        (AppState.mk [] FileState.missing) "hi" ⟨2024, 1, 1, 10, 0, 0⟩).file =
      FileState.content
        (Json.arr ((handle_chat (fun _ => ApiResult.ok "ok")
          (AppState.mk [] FileState.missing) "hi"
          ⟨2024, 1, 1, 10, 0, 0⟩).history.map encodeTurn)) ∧
    ∀ t ∈ (handle_chat (fun _ => ApiResult.ok "ok")
        (AppState.mk [] FileState.missing) "hi" ⟨2024, 1, 1, 10, 0, 0⟩).history,
      WFTurn t :=
  claim_C7_persisted_format (fun _ => ApiResult.ok "ok")
    (AppState.mk [] FileState.missing) "hi" ⟨2024, 1, 1, 10, 0, 0⟩
    (by decide) (by simp)

/-- C8.  The exporter's output depends only on the transcript: for any two
ambient environments (randomness source, external-call responses) the issued
command sequence is identical, since the exporter consults neither. -/
theorem claim_C8_export_deterministic :
    ∀ (h : List Turn) (rand₁ rand₂ : Nat → Nat) (net₁ net₂ : String → String),
      export_pdf h rand₁ net₁ = export_pdf h rand₂ net₂ :=
  fun _ _ _ _ _ => rfl

/-- C9.  Resume analysis and dataset analysis return the whole session state
— transcript and persisted record — unchanged; the adapter's answer appears
only in the displayed-output component of the step. -/
theorem claim_C9_analyses_leave_state :
    ∀ (service : Service) (st : AppState) (rtext preview : String),
      step service st (Op.resume rtext) = (st, some (analyze_resume service rtext)) ∧
      step service st (Op.dataset preview) = (st, some (analyze_dataset service preview)) :=
  fun _ _ _ _ => ⟨rfl, rfl⟩

/-- C10, counterexample.  When the service returns a whitespace-only response
text, `get_ai_response` returns it unchanged (it is truthy), yet the reveal
loop finds no words, so the stored assistant turn's text is the empty
string — refuting the claim's conclusion that it never is. -/
theorem claim_C10_counterexample :
    get_ai_response (fun _ => ApiResult.ok " ") "q" = " " ∧
    (handle_chat (fun _ => ApiResult.ok " ")
        ⟨[], FileState.missing⟩ "q" ⟨2024, 1, 1, 10, 0, 0⟩).history =
      [("user", "q", "2024-01-01 10:00:00"),
       ("assistant", "", "2024-01-01 10:00:00")] := by
  constructor
  · rfl
  · rfl

/-- C10, amended.  The adapter's own return value is never the empty string:
a truthy-but-empty or absent response text yields the fixed placeholder and
an exception yields the API-error-prefixed message; the assistant turn's text
can still be empty, because the reveal loop erases whitespace-only results. -/
theorem claim_C10_amended (service : Service) (input : String) :
    get_ai_response service input ≠ "" ∧
    (service (build_prompt input) = ApiResult.ok "" →
      get_ai_response service input = "⚠️ No response generated.") ∧
    (service (build_prompt input) = ApiResult.noResponse →
      get_ai_response service input = "⚠️ No response generated.") ∧
    (∀ m, service (build_prompt input) = ApiResult.exn m →
      get_ai_response service input = "⚠️ API Error: " ++ m) := by
  refine ⟨?_, ?_, ?_, ?_⟩
  · rcases h : service (build_prompt input) with t | _ | m
    · by_cases ht : t = ""
      · simp [get_ai_response, try_generate, h, ht]
      · simp [get_ai_response, try_generate, h, ht]
    · simp [get_ai_response, try_generate, h]
    · simp [get_ai_response, try_generate, h]
      intro hcontra
      have hlen := congrArg String.length hcontra
      simp only [String.length_append] at hlen
      have h1 : ("⚠️ API Error: " : String).length = 14 := by decide
      have h2 : ("" : String).length = 0 := by decide
      rw [h1, h2] at hlen
      omega
  · intro h
    simp [get_ai_response, try_generate, h]
  · intro h
    simp [get_ai_response, try_generate, h]
  · intro m h
    simp [get_ai_response, try_generate, h]

theorem claim_C10_amended_witness :
    get_ai_response (fun _ => ApiResult.exn "quota exceeded") "q" ≠ "" ∧
    get_ai_response (fun _ => ApiResult.exn "quota exceeded") "q" =
      "⚠️ API Error: " ++ "quota exceeded" :=
  ⟨(claim_C10_amended (fun _ => ApiResult.exn "quota exceeded") "q").1,
    (claim_C10_amended (fun _ => ApiResult.exn "quota exceeded") "q").2.2.2
      "quota exceeded" rfl⟩

end Tutor
